import Mathlib

/-!
Shallow embedding of the scoring core of `src/App.tsx` (the Beauty_Score
repository): numeric helpers, the facial-symmetry score, the golden-ratio
analysis, the composite harmony / overall / originality indices, the
feedback generator, and the jitter-based uncertainty estimator.

JavaScript numbers are modelled as real numbers; `Math.round` is modelled
as `fun x => ⌊x + 1/2⌋` (round half toward positive infinity, exactly the
JavaScript behaviour); `Math.hypot` is the Euclidean norm; `Math.pow` on a
nonnegative base is real exponentiation.  Landmark arrays are modelled as
total functions `ℕ → LM`, since every access in the scoring core is at a
fixed in-range index of the 468-point mesh.  `Math.random`, used by the
jitter, is modelled by an explicit stream of draws in `[0,1)`.
-/

namespace BeautyScore

noncomputable section

/-- Landmark point, `type LM = { x: number; y: number; z?: number }` (App.tsx line 6). -/
structure LM where
  x : ℝ
  y : ℝ
  z : Option ℝ

/-- `clamp` (App.tsx line 66): `Math.min(hi, Math.max(lo, v))`. -/
def clamp (v lo hi : ℝ) : ℝ := min hi (max lo v)

/-- JavaScript `Math.round`: half-up rounding, `⌊x + 1/2⌋`, as a real number. -/
def jsRound (x : ℝ) : ℝ := (⌊x + 1 / 2⌋ : ℤ)

/-- `round1` (App.tsx line 67): `Math.round(v * 10) / 10`. -/
def round1 (v : ℝ) : ℝ := jsRound (v * 10) / 10

/-- `round2` (App.tsx line 68): `Math.round(v * 100) / 100`. -/
def round2 (v : ℝ) : ℝ := jsRound (v * 100) / 100

/-- `euclid` (App.tsx line 70): `Math.hypot(p1[0] - p2[0], p1[1] - p2[1])`. -/
def euclid (p1 p2 : ℝ × ℝ) : ℝ := Real.sqrt ((p1.1 - p2.1) ^ 2 + (p1.2 - p2.2) ^ 2)

/-- `symmetricPairs` (App.tsx lines 72-76): the fixed bilateral index pairs. -/
def symmetricPairs : List (ℕ × ℕ) :=
  [(234, 454), (93, 323), (132, 361), (58, 288), (127, 356),
   (50, 280), (101, 330), (205, 425), (98, 327), (55, 285),
   (65, 295), (107, 336), (52, 282), (66, 296), (3, 13)]

/-- The `diffs` const of `calcSymmetryScore` (App.tsx line 79):
mirror residuals `|x_i - (1 - x_j)|` over the bilateral pairs. -/
def symmetryDiffs (landmarks : ℕ → LM) : List ℝ :=
  symmetricPairs.map fun ij => |(landmarks ij.1).x - (1 - (landmarks ij.2).x)|

/-- The `mean` const of `calcSymmetryScore` (App.tsx line 80). -/
def symmetryMean (landmarks : ℕ → LM) : ℝ :=
  (symmetryDiffs landmarks).sum / (symmetryDiffs landmarks).length

/-- `calcSymmetryScore` (App.tsx lines 78-82).  The inline
`Math.round((100 - mean * 1000) * 100) / 100` is exactly `round2`. -/
def calcSymmetryScore (landmarks : ℕ → LM) : ℝ :=
  max 0 (round2 (100 - symmetryMean landmarks * 1000))

/-- `project` (App.tsx lines 84-86): normalized landmark to pixel coordinates. -/
def project (idx : ℕ) (w h : ℝ) (lms : ℕ → LM) : ℝ × ℝ :=
  ((lms idx).x * w, (lms idx).y * h)

/-- `faceLength` (App.tsx line 113): distance from landmark 10 (top) to 152 (bottom). -/
def faceLength (w h : ℝ) (lms : ℕ → LM) : ℝ :=
  euclid (project 10 w h lms) (project 152 w h lms)

/-- `faceWidth` (App.tsx line 114): distance from landmark 234 (left) to 454 (right). -/
def faceWidth (w h : ℝ) (lms : ℕ → LM) : ℝ :=
  euclid (project 234 w h lms) (project 454 w h lms)

/-- `eyeDist` (App.tsx line 115): distance from landmark 133 to 362. -/
def eyeDist (w h : ℝ) (lms : ℕ → LM) : ℝ :=
  euclid (project 133 w h lms) (project 362 w h lms)

/-- `mouthWidth` (App.tsx line 116): distance from landmark 61 to 291. -/
def mouthWidth (w h : ℝ) (lms : ℕ → LM) : ℝ :=
  euclid (project 61 w h lms) (project 291 w h lms)

/-- `noseToChin` (App.tsx line 117): distance from landmark 1 (nose) to 152 (chin). -/
def noseToChin (w h : ℝ) (lms : ℕ → LM) : ℝ :=
  euclid (project 1 w h lms) (project 152 w h lms)

/-- `lipHeight` (App.tsx line 118): distance from landmark 13 to 14. -/
def lipHeight (w h : ℝ) (lms : ℕ → LM) : ℝ :=
  euclid (project 13 w h lms) (project 14 w h lms)

/-- Ratio "Rapport Longueur/ Largeur du visage" (App.tsx line 121),
with the zero-denominator convention `faceWidth > 0 ? ... : 0`. -/
def ratioFaceLengthWidth (w h : ℝ) (lms : ℕ → LM) : ℝ :=
  if 0 < faceWidth w h lms then faceLength w h lms / faceWidth w h lms else 0

/-- Ratio "Distance inter-oculaire / Largeur bouche" (App.tsx line 122). -/
def ratioEyeMouth (w h : ℝ) (lms : ℕ → LM) : ℝ :=
  if 0 < mouthWidth w h lms then eyeDist w h lms / mouthWidth w h lms else 0

/-- Ratio "Distance inter-oculaire / Largeur visage" (App.tsx line 123). -/
def ratioEyeFace (w h : ℝ) (lms : ℕ → LM) : ℝ :=
  if 0 < faceWidth w h lms then eyeDist w h lms / faceWidth w h lms else 0

/-- Ratio "Nez→Menton / Longueur visage" (App.tsx line 124). -/
def ratioNoseChinFace (w h : ℝ) (lms : ℕ → LM) : ℝ :=
  if 0 < faceLength w h lms then noseToChin w h lms / faceLength w h lms else 0

/-- Ratio "Hauteur lèvres / Largeur bouche" (App.tsx line 125). -/
def ratioLipMouth (w h : ℝ) (lms : ℕ → LM) : ℝ :=
  if 0 < mouthWidth w h lms then lipHeight w h lms / mouthWidth w h lms else 0

/-- Per-ratio relative error (App.tsx lines 136-140):
`ideal > 0 ? Math.abs(val - ideal) / ideal : 1`. -/
def relErr (val ideal : ℝ) : ℝ := if 0 < ideal then |val - ideal| / ideal else 1

/-- The five relative errors against the fixed targets
1.618, 1.618, 0.32, 0.618, 0.2 (App.tsx lines 128-140), in source key order. -/
def relErrs (w h : ℝ) (lms : ℕ → LM) : List ℝ :=
  [relErr (ratioFaceLengthWidth w h lms) 1.618,
   relErr (ratioEyeMouth w h lms) 1.618,
   relErr (ratioEyeFace w h lms) 0.32,
   relErr (ratioNoseChinFace w h lms) 0.618,
   relErr (ratioLipMouth w h lms) 0.2]

/-- `avgDev` (App.tsx line 142): mean relative error over the five ratios. -/
def avgDev (w h : ℝ) (lms : ℕ → LM) : ℝ :=
  (relErrs w h lms).sum / (relErrs w h lms).length

/-- The golden score (App.tsx line 143):
`Math.round(100 * Math.exp(-5 * avgDev) * 100) / 100`, i.e. `round2` of
`100·exp(-5·avgDev)`. -/
def goldenScore (w h : ℝ) (lms : ℕ → LM) : ℝ :=
  round2 (100 * Real.exp (-5 * avgDev w h lms))

/-- The fields of `analyzeGolden`'s output used downstream by the app
(App.tsx lines 88-97, 156): the golden score, face width and eye distance. -/
structure GoldenOut where
  score : ℝ
  faceWidth : ℝ
  eyeDist : ℝ

/-- `analyzeGolden` (App.tsx lines 99-157), restricted to the output fields
the scoring pipeline consumes. -/
def analyzeGolden (w h : ℝ) (lms : ℕ → LM) : GoldenOut :=
  { score := goldenScore w h lms
    faceWidth := faceWidth w h lms
    eyeDist := eyeDist w h lms }

/-- The eye-spacing sub-score of `computeOverall` (App.tsx lines 161-170):
default 75, and for `faceWidth > 0` the 3-tier band on `eyeDist / faceWidth`
with `METHODOLOGY.eyeSpacing = {idealMin 0.28, idealMax 0.36, low 0.26, high 0.38}`. -/
def eyeScoreOf (faceWidth eyeDist : ℝ) : ℝ :=
  if 0 < faceWidth then
    if 0.28 < eyeDist / faceWidth ∧ eyeDist / faceWidth < 0.36 then 100
    else if eyeDist / faceWidth ≤ 0.26 ∨ 0.38 ≤ eyeDist / faceWidth then 60
    else 80
  else 75

/-- The `eyeSpacingRatio` of `computeOverall` (App.tsx lines 162-165):
0 by default, `eyeDist / faceWidth` when `faceWidth > 0`. -/
def eyeSpacingRatioOf (faceWidth eyeDist : ℝ) : ℝ :=
  if 0 < faceWidth then eyeDist / faceWidth else 0

/-- The pre-rounding harmony of `computeOverall` (App.tsx lines 160-173):
`clamp(0.4*symmetry + 0.4*golden + 0.2*eyeScore, 20, 100)`. -/
def harmonyRaw (symmetry golden faceWidth eyeDist : ℝ) : ℝ :=
  clamp (0.4 * symmetry + 0.4 * golden + 0.2 * eyeScoreOf faceWidth eyeDist) 20 100

/-- The `weighted` const of `computeOverall` (App.tsx line 174), with
`METHODOLOGY.weights = {symmetry 0.35, golden 0.25, harmony 0.40}`. -/
def weightedOf (symmetry golden faceWidth eyeDist : ℝ) : ℝ :=
  0.35 * symmetry + 0.25 * golden + 0.40 * harmonyRaw symmetry golden faceWidth eyeDist

/-- The pre-rounding overall index of `computeOverall` (App.tsx lines 174-177):
`raw = weighted / 100`, `scaled = raw ** 1.8`, then `clamp(4 + scaled * 9, 1, 10)`. -/
def overallRaw (symmetry golden faceWidth eyeDist : ℝ) : ℝ :=
  clamp (4 + (weightedOf symmetry golden faceWidth eyeDist / 100) ^ (1.8 : ℝ) * 9) 1 10

/-- The pre-rounding uniqueness (originality) of `computeOverall`
(App.tsx lines 179-183): `uniqRaw = 0.4·|50−symmetry|/50 + 0.3·|60−golden|/60
+ 0.3·|70−harmony|/70`, then `clamp(5 + 4·uniqRaw, 1, 10)`. -/
def uniquenessRaw (symmetry golden faceWidth eyeDist : ℝ) : ℝ :=
  clamp (5 + 4 * (0.4 * (|50 - symmetry| / 50) + 0.3 * (|60 - golden| / 60) +
    0.3 * (|70 - harmonyRaw symmetry golden faceWidth eyeDist| / 70))) 1 10

/-- Feedback sentence, symmetry > 90 (App.tsx line 191). -/
def symLineHigh : String :=
  "Symétrie faciale très élevée — indicateur de régularité morphologique."

/-- Feedback sentence, symmetry > 75 (App.tsx line 192). -/
def symLineMid : String :=
  "Symétrie globalement bonne avec de légères asymétries naturelles."

/-- Feedback sentence, low symmetry (App.tsx line 193). -/
def symLineLow : String :=
  "Asymétries plus marquées — fréquentes et non pathologiques."

/-- Feedback sentence, golden > 90 (App.tsx line 195). -/
def goldenLineHigh : String := "Proportions très proches du nombre d’or."

/-- Feedback sentence, golden > 75 (App.tsx line 196). -/
def goldenLineMid : String :=
  "Légères déviations par rapport au nombre d’or, sans conséquence esthétique directe."

/-- Feedback sentence, low golden (App.tsx line 197). -/
def goldenLineLow : String :=
  "Proportions éloignées du nombre d’or — rappel : la beauté ne se réduit pas à un ratio."

/-- Feedback sentence, eye-spacing ratio in the ideal band (App.tsx line 201). -/
def eyeLineIdeal : String :=
  "Espacement inter-oculaire dans une plage considérée harmonieuse."

/-- Feedback sentence, eye-spacing ratio ≤ 0.26 (App.tsx line 202). -/
def eyeLineNarrow : String :=
  "Espacement inter-oculaire relativement réduit (aspect plus concentré)."

/-- Feedback sentence, eye-spacing ratio ≥ 0.38 (App.tsx line 203). -/
def eyeLineWide : String :=
  "Espacement inter-oculaire relativement large (impression plus ouverte)."

/-- The fixed closing disclaimer (App.tsx line 206). -/
def disclaimerLine : String :=
  "Remarque : ces indicateurs sont descriptifs. La perception esthétique reste multidimensionnelle."

/-- The symmetry block of `buildFeedback` (App.tsx lines 191-193). -/
def symLines (symmetry : ℝ) : List String :=
  if 90 < symmetry then [symLineHigh]
  else if 75 < symmetry then [symLineMid]
  else [symLineLow]

/-- The golden block of `buildFeedback` (App.tsx lines 195-197). -/
def goldenLines (golden : ℝ) : List String :=
  if 90 < golden then [goldenLineHigh]
  else if 75 < golden then [goldenLineMid]
  else [goldenLineLow]

/-- The eye-spacing block of `buildFeedback` (App.tsx lines 199-204):
emitted only when `eyeSpacingRatio > 0`, and empty for a ratio in
`(0.26, 0.28] ∪ [0.36, 0.38)`. -/
def eyeLines (eyeSpacingRatio : ℝ) : List String :=
  if 0 < eyeSpacingRatio then
    if 0.28 < eyeSpacingRatio ∧ eyeSpacingRatio < 0.36 then [eyeLineIdeal]
    else if eyeSpacingRatio ≤ 0.26 then [eyeLineNarrow]
    else if 0.38 ≤ eyeSpacingRatio then [eyeLineWide]
    else []
  else []

/-- `buildFeedback` (App.tsx lines 189-208) as the list of lines pushed, in
push order; the source joins them with a newline. -/
def buildFeedback (symmetry golden eyeSpacingRatio : ℝ) : List String :=
  symLines symmetry ++ goldenLines golden ++ eyeLines eyeSpacingRatio ++ [disclaimerLine]

/-- The record returned by `computeOverall` (App.tsx line 186). -/
structure OverallOut where
  harmony : ℝ
  overall : ℝ
  uniqueness : ℝ
  feedback : List String

/-- `computeOverall` (App.tsx lines 159-187): returns
`{harmony: round2(harmony), overall: round1(overall), uniqueness: round1(uniqueness), feedback}`. -/
def computeOverall (symmetry golden faceWidth eyeDist : ℝ) : OverallOut :=
  { harmony := round2 (harmonyRaw symmetry golden faceWidth eyeDist)
    overall := round1 (overallRaw symmetry golden faceWidth eyeDist)
    uniqueness := round1 (uniquenessRaw symmetry golden faceWidth eyeDist)
    feedback := buildFeedback symmetry golden (eyeSpacingRatioOf faceWidth eyeDist) }

/-- One draw of the jitter noise (App.tsx line 304):
`(Math.random() * 2 - 1) * sigma`, with `u` the `Math.random()` value. -/
def jitterNoise (u σ : ℝ) : ℝ := (u * 2 - 1) * σ

/-- `jitterLandmarks` (App.tsx lines 303-306), with the stream `u` of
`Math.random()` draws made explicit: each landmark consumes two fresh draws
(x first, then y), each coordinate is clamped back into `[0,1]`, and `z` is
passed through unchanged. -/
def jitterLandmarks (u : ℕ → ℝ) (lms : ℕ → LM) (σ : ℝ) : ℕ → LM :=
  fun i =>
    { x := clamp ((lms i).x + jitterNoise (u (2 * i)) σ) 0 1
      y := clamp ((lms i).y + jitterNoise (u (2 * i + 1)) σ) 0 1
      z := (lms i).z }

/-- The record returned by `withUncertainty` (App.tsx line 314). -/
structure UncOut where
  mean : ℝ
  sd : ℝ
  ci95 : ℝ

/-- The `vals` array of `withUncertainty` (App.tsx lines 308-311), with
`calcOnce` modelled as the sequence of scalars its successive invocations
collect. -/
def uncVals (calcOnce : ℕ → ℝ) (repeats : ℕ) : List ℝ :=
  (List.range repeats).map calcOnce

/-- The `mean` const of `withUncertainty` (App.tsx line 312). -/
def uncMean (calcOnce : ℕ → ℝ) (repeats : ℕ) : ℝ :=
  (uncVals calcOnce repeats).sum / (uncVals calcOnce repeats).length

/-- The `sd` const of `withUncertainty` (App.tsx line 313): population
standard deviation of the collected scalars. -/
def uncSd (calcOnce : ℕ → ℝ) (repeats : ℕ) : ℝ :=
  Real.sqrt (((uncVals calcOnce repeats).map fun b =>
    (b - uncMean calcOnce repeats) * (b - uncMean calcOnce repeats)).sum /
    (uncVals calcOnce repeats).length)

/-- `withUncertainty` (App.tsx lines 307-315): sample mean, population
standard deviation, and `ci95 = 1.96 * sd`. -/
def withUncertainty (calcOnce : ℕ → ℝ) (repeats : ℕ) : UncOut :=
  { mean := uncMean calcOnce repeats
    sd := uncSd calcOnce repeats
    ci95 := 1.96 * uncSd calcOnce repeats }

/-- Spec-side eye-spacing sub-score, written from the specification's words:
"banded into {100 if within (0.28,0.36), 60 if ≤0.26 or ≥0.38, 80 otherwise}". -/
def eyeSubscoreSpec (r : ℝ) : ℝ :=
  if 0.28 < r ∧ r < 0.36 then 100
  else if r ≤ 0.26 ∨ 0.38 ≤ r then 60
  else 80

/-- Spec-side harmony, written from the specification's words:
`harmony = clamp(0.4·symmetry + 0.4·golden + 0.2·eye_subscore, 20, 100)`. -/
def harmonySpec (symmetry golden eyeSub : ℝ) : ℝ :=
  clamp (0.4 * symmetry + 0.4 * golden + 0.2 * eyeSub) 20 100

/-- Constant landmark set: every mesh point at (1/2, 1/2). -/
def lmHalf : ℕ → LM := fun _ => { x := 1 / 2, y := 1 / 2, z := none }

/-- A concrete synthetic landmark set: all bilateral pairs perfectly
mirrored, and (at image size 1 × 1) all five measured ratios exactly equal
to their targets, with face width 0.5 and eye distance 0.16. -/
def lmC6 : ℕ → LM := fun i =>
  if i = 10 then { x := 1 / 2, y := 1 / 20, z := none }
  else if i = 152 then { x := 1 / 2, y := 859 / 1000, z := none }
  else if i = 234 then { x := 1 / 4, y := 2 / 5, z := none }
  else if i = 454 then { x := 3 / 4, y := 2 / 5, z := none }
  else if i = 133 then { x := 21 / 50, y := 7 / 20, z := none }
  else if i = 362 then { x := 29 / 50, y := 7 / 20, z := none }
  else if i = 61 then { x := 9 / 20, y := 7 / 10, z := none }
  else if i = 291 then { x := 9 / 20 + 80 / 809, y := 7 / 10, z := none }
  else if i = 1 then { x := 1 / 2, y := 359038 / 1000000, z := none }
  else if i = 13 then { x := 1 / 2, y := 3 / 5, z := none }
  else if i = 14 then { x := 1 / 2, y := 3 / 5 + 16 / 809, z := none }
  else { x := 1 / 2, y := 1 / 2, z := none }

end

/-! ## Helper lemmas about the numeric primitives -/

lemma clamp_le_hi (v lo hi : ℝ) : clamp v lo hi ≤ hi := min_le_left _ _

lemma lo_le_clamp (v lo hi : ℝ) (h : lo ≤ hi) : lo ≤ clamp v lo hi :=
  le_min h (le_max_left _ _)

lemma le_clamp (v lo hi c : ℝ) (hc : c ≤ hi) (hv : c ≤ v) : c ≤ clamp v lo hi :=
  le_min hc (hv.trans (le_max_right _ _))

lemma clamp_eq_self (v lo hi : ℝ) (h1 : lo ≤ v) (h2 : v ≤ hi) : clamp v lo hi = v := by
  unfold clamp
  rw [max_eq_right h1, min_eq_right h2]

lemma le_jsRound (x : ℝ) (n : ℤ) (h : (n : ℝ) ≤ x) : (n : ℝ) ≤ jsRound x := by
  unfold jsRound
  exact_mod_cast Int.le_floor.mpr (by linarith)

lemma jsRound_le (x : ℝ) (n : ℤ) (h : x ≤ n) : jsRound x ≤ (n : ℝ) := by
  unfold jsRound
  have hlt : ⌊x + 1 / 2⌋ < n + 1 := Int.floor_lt.mpr (by push_cast; linarith)
  exact_mod_cast Int.lt_add_one_iff.mp hlt

lemma jsRound_eq (x : ℝ) (n : ℤ) (h1 : (n : ℝ) ≤ x + 1 / 2) (h2 : x + 1 / 2 < n + 1) :
    jsRound x = (n : ℝ) := by
  unfold jsRound
  have hfl : ⌊x + 1 / 2⌋ = n := Int.floor_eq_iff.mpr ⟨h1, by exact_mod_cast h2⟩
  rw [hfl]

lemma le_round2 (v : ℝ) (n : ℤ) (h : (n : ℝ) ≤ v * 100) : (n : ℝ) / 100 ≤ round2 v := by
  unfold round2
  have := le_jsRound (v * 100) n h
  linarith

lemma round2_le (v : ℝ) (n : ℤ) (h : v * 100 ≤ n) : round2 v ≤ (n : ℝ) / 100 := by
  unfold round2
  have := jsRound_le (v * 100) n h
  linarith

lemma round2_eq (v : ℝ) (n : ℤ) (h1 : (n : ℝ) ≤ v * 100 + 1 / 2) (h2 : v * 100 + 1 / 2 < n + 1) :
    round2 v = (n : ℝ) / 100 := by
  unfold round2
  rw [jsRound_eq (v * 100) n h1 h2]

lemma le_round1 (v : ℝ) (n : ℤ) (h : (n : ℝ) ≤ v * 10) : (n : ℝ) / 10 ≤ round1 v := by
  unfold round1
  have := le_jsRound (v * 10) n h
  linarith

lemma round1_le (v : ℝ) (n : ℤ) (h : v * 10 ≤ n) : round1 v ≤ (n : ℝ) / 10 := by
  unfold round1
  have := jsRound_le (v * 10) n h
  linarith

lemma round1_eq (v : ℝ) (n : ℤ) (h1 : (n : ℝ) ≤ v * 10 + 1 / 2) (h2 : v * 10 + 1 / 2 < n + 1) :
    round1 v = (n : ℝ) / 10 := by
  unfold round1
  rw [jsRound_eq (v * 10) n h1 h2]

lemma euclid_vertical (x y1 y2 : ℝ) : euclid (x, y1) (x, y2) = |y1 - y2| := by
  unfold euclid
  simp [Real.sqrt_sq_eq_abs]

lemma euclid_horizontal (x1 x2 y : ℝ) : euclid (x1, y) (x2, y) = |x1 - x2| := by
  unfold euclid
  simp [Real.sqrt_sq_eq_abs]

lemma euclid_self (p : ℝ × ℝ) : euclid p p = 0 := by
  unfold euclid
  simp

lemma round2_hundred : round2 (100 : ℝ) = 100 := by
  have h := round2_eq 100 10000 (by norm_num) (by norm_num)
  norm_num at h
  exact h

lemma exp_five_bounds : (148.41 : ℝ) < Real.exp 5 ∧ Real.exp 5 < 148.42 := by
  have he5 : Real.exp 1 ^ (5 : ℕ) = Real.exp 5 := by
    rw [← Real.exp_nat_mul]
    norm_num
  constructor
  · calc (148.41 : ℝ) < 2.7182818283 ^ (5 : ℕ) := by norm_num
      _ < Real.exp 1 ^ (5 : ℕ) :=
        pow_lt_pow_left₀ Real.exp_one_gt_d9 (by norm_num) (by norm_num)
      _ = Real.exp 5 := he5
  · calc Real.exp 5 = Real.exp 1 ^ (5 : ℕ) := he5.symm
      _ < 2.7182818286 ^ (5 : ℕ) :=
        pow_lt_pow_left₀ Real.exp_one_lt_d9 (Real.exp_pos 1).le (by norm_num)
      _ < 148.42 := by norm_num

lemma round2_exp_neg5 : round2 (100 * Real.exp (-5)) = 0.67 := by
  obtain ⟨hlo, hhi⟩ := exp_five_bounds
  have hepos : (0 : ℝ) < Real.exp 5 := Real.exp_pos 5
  have hinvpos : (0 : ℝ) < (Real.exp 5)⁻¹ := inv_pos.mpr hepos
  have hinv : Real.exp 5 * (Real.exp 5)⁻¹ = 1 := mul_inv_cancel₀ (ne_of_gt hepos)
  have hexp : Real.exp (-5 : ℝ) = (Real.exp 5)⁻¹ := Real.exp_neg 5
  have p1 : (148.41 : ℝ) * (Real.exp 5)⁻¹ < 1 := by
    have h := mul_lt_mul_of_pos_right hlo hinvpos
    rwa [hinv] at h
  have p2 : (1 : ℝ) < 148.42 * (Real.exp 5)⁻¹ := by
    have h := mul_lt_mul_of_pos_right hhi hinvpos
    rwa [hinv] at h
  have h := round2_eq (100 * Real.exp (-5)) 67
    (by push_cast; rw [hexp]; nlinarith) (by push_cast; rw [hexp]; nlinarith)
  rw [h]
  norm_num

/-! ## Symmetry score lemmas -/

lemma symmetryDiffs_sum_nonneg (lms : ℕ → LM) : 0 ≤ (symmetryDiffs lms).sum :=
  List.sum_nonneg (by
    intro x hx
    obtain ⟨p, _, rfl⟩ := List.mem_map.mp hx
    exact abs_nonneg _)

lemma symmetryMean_nonneg (lms : ℕ → LM) : 0 ≤ symmetryMean lms := by
  unfold symmetryMean
  have h1 := symmetryDiffs_sum_nonneg lms
  positivity

lemma calcSymmetryScore_nonneg (lms : ℕ → LM) : 0 ≤ calcSymmetryScore lms :=
  le_max_left _ _

lemma calcSymmetryScore_le_100 (lms : ℕ → LM) : calcSymmetryScore lms ≤ 100 := by
  unfold calcSymmetryScore
  apply max_le (by norm_num)
  have hm := symmetryMean_nonneg lms
  have h2 := round2_le (100 - symmetryMean lms * 1000) 10000 (by push_cast; nlinarith)
  norm_num at h2
  exact h2

lemma calcSymmetryScore_mirror (lms : ℕ → LM)
    (h : ∀ p ∈ symmetricPairs, (lms p.1).x = 1 - (lms p.2).x) :
    calcSymmetryScore lms = 100 := by
  have hz : (symmetryDiffs lms).sum = 0 := by
    apply List.sum_eq_zero
    intro x hx
    obtain ⟨p, hp, rfl⟩ := List.mem_map.mp hx
    rw [h p hp]
    simp
  have hmean : symmetryMean lms = 0 := by
    unfold symmetryMean
    rw [hz]
    simp
  unfold calcSymmetryScore
  rw [hmean]
  norm_num [round2_hundred]

/-! ## Golden score lemmas -/

lemma relErr_self (t : ℝ) (h : 0 < t) : relErr t t = 0 := by
  unfold relErr
  rw [if_pos h]
  simp

lemma relErr_of_zero (t : ℝ) (h : 0 < t) : relErr 0 t = 1 := by
  unfold relErr
  rw [if_pos h, zero_sub, abs_neg, abs_of_pos h, div_self (ne_of_gt h)]

lemma goldenScore_of_targets (w h : ℝ) (lms : ℕ → LM)
    (h1 : ratioFaceLengthWidth w h lms = 1.618) (h2 : ratioEyeMouth w h lms = 1.618)
    (h3 : ratioEyeFace w h lms = 0.32) (h4 : ratioNoseChinFace w h lms = 0.618)
    (h5 : ratioLipMouth w h lms = 0.2) : goldenScore w h lms = 100 := by
  have havg : avgDev w h lms = 0 := by
    unfold avgDev relErrs
    rw [h1, h2, h3, h4, h5]
    rw [relErr_self 1.618 (by norm_num), relErr_self 0.32 (by norm_num),
      relErr_self 0.618 (by norm_num), relErr_self 0.2 (by norm_num)]
    norm_num
  unfold goldenScore
  rw [havg]
  norm_num [Real.exp_zero, round2_hundred]

/-! ## Concrete landmark set evaluations -/

lemma lmC6_faceLength : faceLength 1 1 lmC6 = 809 / 1000 := by
  unfold faceLength project
  norm_num [lmC6]
  rw [euclid_vertical, abs_of_nonpos (by norm_num)]
  norm_num

lemma lmC6_faceWidth : faceWidth 1 1 lmC6 = 1 / 2 := by
  unfold faceWidth project
  norm_num [lmC6]
  rw [euclid_horizontal, abs_of_nonpos (by norm_num)]
  norm_num

lemma lmC6_eyeDist : eyeDist 1 1 lmC6 = 4 / 25 := by
  unfold eyeDist project
  norm_num [lmC6]
  rw [euclid_horizontal, abs_of_nonpos (by norm_num)]
  norm_num

lemma lmC6_mouthWidth : mouthWidth 1 1 lmC6 = 80 / 809 := by
  unfold mouthWidth project
  norm_num [lmC6]
  rw [euclid_horizontal, abs_of_nonpos (by norm_num)]
  norm_num

lemma lmC6_noseToChin : noseToChin 1 1 lmC6 = 499962 / 1000000 := by
  unfold noseToChin project
  norm_num [lmC6]
  rw [euclid_vertical, abs_of_nonpos (by norm_num)]
  norm_num

lemma lmC6_lipHeight : lipHeight 1 1 lmC6 = 16 / 809 := by
  unfold lipHeight project
  norm_num [lmC6]
  rw [euclid_vertical, abs_of_nonpos (by norm_num)]
  norm_num

lemma lmC6_ratios :
    ratioFaceLengthWidth 1 1 lmC6 = 1.618 ∧ ratioEyeMouth 1 1 lmC6 = 1.618 ∧
    ratioEyeFace 1 1 lmC6 = 0.32 ∧ ratioNoseChinFace 1 1 lmC6 = 0.618 ∧
    ratioLipMouth 1 1 lmC6 = 0.2 := by
  unfold ratioFaceLengthWidth ratioEyeMouth ratioEyeFace ratioNoseChinFace ratioLipMouth
  rw [lmC6_faceLength, lmC6_faceWidth, lmC6_eyeDist, lmC6_mouthWidth, lmC6_noseToChin,
    lmC6_lipHeight]
  norm_num

lemma lmC6_mirror : ∀ p ∈ symmetricPairs, (lmC6 p.1).x = 1 - (lmC6 p.2).x := by
  intro p hp
  unfold symmetricPairs at hp
  fin_cases hp <;> norm_num [lmC6]

/-! ## Claim theorems: C2 and C3 -/

/-- Claim C2: for every landmark list (all bilateral-pair indices of the fixed
table being defined), `calcSymmetryScore` returns a value in [0,100]; and for
every landmark list whose pairs are perfectly mirrored (`x_i = 1 - x_j` for
every bilateral pair), it returns exactly 100. -/
theorem c2_symmetry_bounds_and_mirror (lms : ℕ → LM) :
    (0 ≤ calcSymmetryScore lms ∧ calcSymmetryScore lms ≤ 100) ∧
    ((∀ p ∈ symmetricPairs, (lms p.1).x = 1 - (lms p.2).x) → calcSymmetryScore lms = 100) :=
  ⟨⟨calcSymmetryScore_nonneg lms, calcSymmetryScore_le_100 lms⟩, calcSymmetryScore_mirror lms⟩

/-- Witness for C2 at the constant landmark set with every point at (1/2, 1/2),
which is perfectly mirrored. -/
theorem c2_symmetry_witness :
    (0 ≤ calcSymmetryScore lmHalf ∧ calcSymmetryScore lmHalf ≤ 100) ∧
    calcSymmetryScore lmHalf = 100 := by
  have h := c2_symmetry_bounds_and_mirror lmHalf
  refine ⟨h.1, h.2 ?_⟩
  intro p hp
  norm_num [lmHalf]

/-- Claim C3: for every landmark list whose five measured ratios exactly equal
the five fixed targets (1.618, 1.618, 0.32, 0.618, 0.20), the golden score of
`analyzeGolden` is exactly 100 (the mean relative error 0 yields
`round2(100·exp(0)) = 100`). -/
theorem c3_golden_perfect (w h : ℝ) (lms : ℕ → LM)
    (h1 : ratioFaceLengthWidth w h lms = 1.618) (h2 : ratioEyeMouth w h lms = 1.618)
    (h3 : ratioEyeFace w h lms = 0.32) (h4 : ratioNoseChinFace w h lms = 0.618)
    (h5 : ratioLipMouth w h lms = 0.2) : (analyzeGolden w h lms).score = 100 :=
  goldenScore_of_targets w h lms h1 h2 h3 h4 h5

/-- Witness for C3: a concrete landmark set at image size 1 × 1 whose five
ratios equal the targets exactly. -/
theorem c3_golden_witness : (analyzeGolden 1 1 lmC6).score = 100 := by
  obtain ⟨h1, h2, h3, h4, h5⟩ := lmC6_ratios
  exact c3_golden_perfect 1 1 lmC6 h1 h2 h3 h4 h5

/-! ## Composite index bounds -/

lemma harmonyRaw_mem (s g fw ed : ℝ) : 20 ≤ harmonyRaw s g fw ed ∧ harmonyRaw s g fw ed ≤ 100 := by
  unfold harmonyRaw
  exact ⟨lo_le_clamp _ _ _ (by norm_num), clamp_le_hi _ _ _⟩

lemma overallRaw_mem (s g fw ed : ℝ) : 1 ≤ overallRaw s g fw ed ∧ overallRaw s g fw ed ≤ 10 := by
  unfold overallRaw
  exact ⟨lo_le_clamp _ _ _ (by norm_num), clamp_le_hi _ _ _⟩

lemma uniquenessRaw_mem (s g fw ed : ℝ) :
    1 ≤ uniquenessRaw s g fw ed ∧ uniquenessRaw s g fw ed ≤ 10 := by
  unfold uniquenessRaw
  exact ⟨lo_le_clamp _ _ _ (by norm_num), clamp_le_hi _ _ _⟩

/-- Claim C1: for symmetry and golden inputs anywhere in their documented
[0,100] ranges (extremes 0 and 100 included) and any face width and eye
distance, the three composite outputs of `computeOverall` — after their
rounding (2 decimals for harmony, 1 decimal for overall and uniqueness) —
lie within the documented clamped ranges: harmony ∈ [20,100],
overall ∈ [1,10], uniqueness ∈ [1,10]. -/
theorem c1_composite_ranges (s g fw ed : ℝ)
    (hs0 : 0 ≤ s) (hs1 : s ≤ 100) (hg0 : 0 ≤ g) (hg1 : g ≤ 100) :
    (20 ≤ (computeOverall s g fw ed).harmony ∧ (computeOverall s g fw ed).harmony ≤ 100) ∧
    (1 ≤ (computeOverall s g fw ed).overall ∧ (computeOverall s g fw ed).overall ≤ 10) ∧
    (1 ≤ (computeOverall s g fw ed).uniqueness ∧ (computeOverall s g fw ed).uniqueness ≤ 10) := by
  simp only [computeOverall]
  obtain ⟨hh1, hh2⟩ := harmonyRaw_mem s g fw ed
  obtain ⟨ho1, ho2⟩ := overallRaw_mem s g fw ed
  obtain ⟨hu1, hu2⟩ := uniquenessRaw_mem s g fw ed
  refine ⟨⟨?_, ?_⟩, ⟨?_, ?_⟩, ⟨?_, ?_⟩⟩
  · have h := le_round2 (harmonyRaw s g fw ed) 2000 (by push_cast; linarith)
    norm_num at h
    exact h
  · have h := round2_le (harmonyRaw s g fw ed) 10000 (by push_cast; linarith)
    norm_num at h
    exact h
  · have h := le_round1 (overallRaw s g fw ed) 10 (by push_cast; linarith)
    norm_num at h
    exact h
  · have h := round1_le (overallRaw s g fw ed) 100 (by push_cast; linarith)
    norm_num at h
    exact h
  · have h := le_round1 (uniquenessRaw s g fw ed) 10 (by push_cast; linarith)
    norm_num at h
    exact h
  · have h := round1_le (uniquenessRaw s g fw ed) 100 (by push_cast; linarith)
    norm_num at h
    exact h

/-- Witness for C1 at the extreme inputs symmetry = 0, golden = 100. -/
theorem c1_composite_ranges_witness :
    (20 ≤ (computeOverall 0 100 1 0.32).harmony ∧ (computeOverall 0 100 1 0.32).harmony ≤ 100) ∧
    (1 ≤ (computeOverall 0 100 1 0.32).overall ∧ (computeOverall 0 100 1 0.32).overall ≤ 10) ∧
    (1 ≤ (computeOverall 0 100 1 0.32).uniqueness ∧
      (computeOverall 0 100 1 0.32).uniqueness ≤ 10) :=
  c1_composite_ranges 0 100 1 0.32 (by norm_num) (by norm_num) (by norm_num) (by norm_num)

/-- Claim C10: for every symmetry ∈ [0,100] and golden ∈ [0,100], the overall
index returned by `computeOverall` is at least 4 (the weighted blend raised to
the 1.8 power is nonnegative and the clamp to [1,10] never lowers 4 + 9·x^1.8
below 4), so overall always lies in [4,10]. -/
theorem c10_overall_at_least_four (s g fw ed : ℝ)
    (hs0 : 0 ≤ s) (hs1 : s ≤ 100) (hg0 : 0 ≤ g) (hg1 : g ≤ 100) :
    4 ≤ (computeOverall s g fw ed).overall ∧ (computeOverall s g fw ed).overall ≤ 10 := by
  simp only [computeOverall]
  obtain ⟨hh1, hh2⟩ := harmonyRaw_mem s g fw ed
  have hw : 0 ≤ weightedOf s g fw ed / 100 := by
    unfold weightedOf
    nlinarith
  have hscaled : 0 ≤ (weightedOf s g fw ed / 100) ^ (1.8 : ℝ) := Real.rpow_nonneg hw _
  have h4 : 4 ≤ overallRaw s g fw ed := by
    unfold overallRaw
    exact le_clamp _ _ _ _ (by norm_num) (by nlinarith)
  have h10 : overallRaw s g fw ed ≤ 10 := (overallRaw_mem s g fw ed).2
  constructor
  · have h := le_round1 (overallRaw s g fw ed) 40 (by push_cast; linarith)
    norm_num at h
    exact h
  · have h := round1_le (overallRaw s g fw ed) 100 (by push_cast; linarith)
    norm_num at h
    exact h

/-- Witness for C10 at symmetry = golden = 0 and degenerate geometry. -/
theorem c10_overall_witness :
    4 ≤ (computeOverall 0 0 0 0).overall ∧ (computeOverall 0 0 0 0).overall ≤ 10 :=
  c10_overall_at_least_four 0 0 0 0 (by norm_num) (by norm_num) (by norm_num) (by norm_num)

/-- Claim C7: for every positive face width, the eye-spacing sub-score used by
`computeOverall` is exactly the 3-tier step function of `ratio = eyeDist/faceWidth`
written in the spec (100 strictly inside (0.28,0.36); 60 when ≤ 0.26 or ≥ 0.38;
80 otherwise), and harmony is `clamp(0.4·symmetry + 0.4·golden + 0.2·eye_subscore, 20, 100)`. -/
theorem c7_eye_band_and_harmony (s g fw ed : ℝ) (hfw : 0 < fw) :
    eyeScoreOf fw ed = eyeSubscoreSpec (ed / fw) ∧
    harmonyRaw s g fw ed = harmonySpec s g (eyeSubscoreSpec (ed / fw)) ∧
    (computeOverall s g fw ed).harmony = round2 (harmonySpec s g (eyeSubscoreSpec (ed / fw))) := by
  have h1 : eyeScoreOf fw ed = eyeSubscoreSpec (ed / fw) := by
    unfold eyeScoreOf eyeSubscoreSpec
    rw [if_pos hfw]
  refine ⟨h1, ?_, ?_⟩
  · unfold harmonyRaw harmonySpec
    rw [h1]
  · simp only [computeOverall]
    unfold harmonyRaw harmonySpec
    rw [h1]

/-- Witness for C7 at face width 1, eye distance 0.32. -/
theorem c7_eye_band_witness :
    eyeScoreOf 1 0.32 = eyeSubscoreSpec (0.32 / 1) ∧
    harmonyRaw 50 50 1 0.32 = harmonySpec 50 50 (eyeSubscoreSpec (0.32 / 1)) ∧
    (computeOverall 50 50 1 0.32).harmony = round2 (harmonySpec 50 50 (eyeSubscoreSpec (0.32 / 1))) :=
  c7_eye_band_and_harmony 50 50 1 0.32 (by norm_num)

/-! ## Feedback lemmas -/

lemma eyeLines_zero : eyeLines (0 : ℝ) = [] := by
  unfold eyeLines
  rw [if_neg (lt_irrefl 0)]

lemma buildFeedback_getLast (s g r : ℝ) :
    (buildFeedback s g r).getLast? = some disclaimerLine := by
  unfold buildFeedback
  simp

/-- Claim C9: when `faceWidth = 0` (degenerate geometry), `computeOverall`
uses the default eye sub-score 75 instead of the three documented bands,
reports `eyeSpacingRatio = 0`, and consequently the feedback contains no
eye-spacing sentence, while the fixed disclaimer is still the last line. -/
theorem c9_zero_facewidth_feedback (s g ed : ℝ) :
    eyeScoreOf 0 ed = 75 ∧ eyeSpacingRatioOf 0 ed = 0 ∧
    eyeLineIdeal ∉ (computeOverall s g 0 ed).feedback ∧
    eyeLineNarrow ∉ (computeOverall s g 0 ed).feedback ∧
    eyeLineWide ∉ (computeOverall s g 0 ed).feedback ∧
    (computeOverall s g 0 ed).feedback.getLast? = some disclaimerLine := by
  have hr : eyeSpacingRatioOf 0 ed = 0 := by
    unfold eyeSpacingRatioOf
    rw [if_neg (lt_irrefl 0)]
  have hfb : (computeOverall s g 0 ed).feedback = buildFeedback s g 0 := by
    simp only [computeOverall]
    rw [hr]
  refine ⟨?_, hr, ?_, ?_, ?_, ?_⟩
  · unfold eyeScoreOf
    rw [if_neg (lt_irrefl 0)]
  · rw [hfb]
    unfold buildFeedback symLines goldenLines
    rw [eyeLines_zero]
    split_ifs <;> decide
  · rw [hfb]
    unfold buildFeedback symLines goldenLines
    rw [eyeLines_zero]
    split_ifs <;> decide
  · rw [hfb]
    unfold buildFeedback symLines goldenLines
    rw [eyeLines_zero]
    split_ifs <;> decide
  · rw [hfb]
    exact buildFeedback_getLast s g 0

/-! ## Degenerate geometry (all landmarks coincident) -/

lemma euclid_project_const (i j : ℕ) (w h : ℝ) (lms : ℕ → LM) (p : LM)
    (hc : ∀ k, lms k = p) :
    euclid (project i w h lms) (project j w h lms) = 0 := by
  unfold project
  rw [hc i, hc j]
  exact euclid_self _

/-- Claim C4: a landmark list with all coordinates identical raises no
exception and produces: all six pixel distances 0, all five ratios 0 (by the
zero-denominator convention, never division blow-up), all five relative
errors 1, and a golden score of `round2(100·exp(-5))`, which is 0.67. -/
theorem c4_degenerate_geometry (w h : ℝ) (lms : ℕ → LM) (p : LM) (hc : ∀ i, lms i = p) :
    (faceLength w h lms = 0 ∧ faceWidth w h lms = 0 ∧ eyeDist w h lms = 0 ∧
      mouthWidth w h lms = 0 ∧ noseToChin w h lms = 0 ∧ lipHeight w h lms = 0) ∧
    (ratioFaceLengthWidth w h lms = 0 ∧ ratioEyeMouth w h lms = 0 ∧
      ratioEyeFace w h lms = 0 ∧ ratioNoseChinFace w h lms = 0 ∧
      ratioLipMouth w h lms = 0) ∧
    relErrs w h lms = [1, 1, 1, 1, 1] ∧
    (analyzeGolden w h lms).score = round2 (100 * Real.exp (-5)) ∧
    (analyzeGolden w h lms).score = 0.67 := by
  have hfl : faceLength w h lms = 0 := euclid_project_const 10 152 w h lms p hc
  have hfw : faceWidth w h lms = 0 := euclid_project_const 234 454 w h lms p hc
  have hed : eyeDist w h lms = 0 := euclid_project_const 133 362 w h lms p hc
  have hmw : mouthWidth w h lms = 0 := euclid_project_const 61 291 w h lms p hc
  have hnc : noseToChin w h lms = 0 := euclid_project_const 1 152 w h lms p hc
  have hlh : lipHeight w h lms = 0 := euclid_project_const 13 14 w h lms p hc
  have hr1 : ratioFaceLengthWidth w h lms = 0 := by
    unfold ratioFaceLengthWidth
    rw [hfw, if_neg (lt_irrefl 0)]
  have hr2 : ratioEyeMouth w h lms = 0 := by
    unfold ratioEyeMouth
    rw [hmw, if_neg (lt_irrefl 0)]
  have hr3 : ratioEyeFace w h lms = 0 := by
    unfold ratioEyeFace
    rw [hfw, if_neg (lt_irrefl 0)]
  have hr4 : ratioNoseChinFace w h lms = 0 := by
    unfold ratioNoseChinFace
    rw [hfl, if_neg (lt_irrefl 0)]
  have hr5 : ratioLipMouth w h lms = 0 := by
    unfold ratioLipMouth
    rw [hmw, if_neg (lt_irrefl 0)]
  have hrel : relErrs w h lms = [1, 1, 1, 1, 1] := by
    unfold relErrs
    rw [hr1, hr2, hr3, hr4, hr5]
    rw [relErr_of_zero 1.618 (by norm_num), relErr_of_zero 0.32 (by norm_num),
      relErr_of_zero 0.618 (by norm_num), relErr_of_zero 0.2 (by norm_num)]
  have havg : avgDev w h lms = 1 := by
    unfold avgDev
    rw [hrel]
    norm_num
  have hscore : (analyzeGolden w h lms).score = round2 (100 * Real.exp (-5)) := by
    show goldenScore w h lms = _
    unfold goldenScore
    rw [havg]
    norm_num
  exact ⟨⟨hfl, hfw, hed, hmw, hnc, hlh⟩, ⟨hr1, hr2, hr3, hr4, hr5⟩, hrel, hscore,
    hscore.trans round2_exp_neg5⟩

/-! ## Perfect end-to-end pipeline (C6) -/

lemma computeOverall_perfect (fw ed : ℝ) (hfw : 0 < fw)
    (hband : 0.28 < ed / fw ∧ ed / fw < 0.36) :
    eyeScoreOf fw ed = 100 ∧ (computeOverall 100 100 fw ed).harmony = 100 ∧
    (computeOverall 100 100 fw ed).overall = 10 ∧
    (computeOverall 100 100 fw ed).uniqueness = 7.9 := by
  have heye : eyeScoreOf fw ed = 100 := by
    unfold eyeScoreOf
    rw [if_pos hfw, if_pos hband]
  have hharmRaw : harmonyRaw 100 100 fw ed = 100 := by
    unfold harmonyRaw
    rw [heye]
    have he : (0.4 : ℝ) * 100 + 0.4 * 100 + 0.2 * 100 = 100 := by norm_num
    rw [he, clamp_eq_self 100 20 100 (by norm_num) (by norm_num)]
  have hharm : (computeOverall 100 100 fw ed).harmony = 100 := by
    simp only [computeOverall]
    rw [hharmRaw, round2_hundred]
  have hweighted : weightedOf 100 100 fw ed = 100 := by
    unfold weightedOf
    rw [hharmRaw]
    norm_num
  have hoverRaw : overallRaw 100 100 fw ed = 10 := by
    unfold overallRaw
    rw [hweighted]
    have h1 : (100 : ℝ) / 100 = 1 := by norm_num
    rw [h1, Real.one_rpow]
    have h13 : (4 : ℝ) + 1 * 9 = 13 := by norm_num
    rw [h13]
    unfold clamp
    rw [max_eq_right (by norm_num : (1 : ℝ) ≤ 13)]
    exact min_eq_left (by norm_num)
  have hover : (computeOverall 100 100 fw ed).overall = 10 := by
    simp only [computeOverall]
    rw [hoverRaw]
    have h := round1_eq 10 100 (by norm_num) (by norm_num)
    rw [h]
    norm_num
  have a1 : |(50 : ℝ) - 100| = 50 := by
    rw [abs_of_nonpos] <;> norm_num
  have a2 : |(60 : ℝ) - 100| = 40 := by
    rw [abs_of_nonpos] <;> norm_num
  have a3 : |(70 : ℝ) - 100| = 30 := by
    rw [abs_of_nonpos] <;> norm_num
  have huniqRaw : uniquenessRaw 100 100 fw ed = 277 / 35 := by
    unfold uniquenessRaw clamp
    rw [hharmRaw, a1, a2, a3]
    rw [max_eq_right (by norm_num), min_eq_right (by norm_num)]
    norm_num
  have huniq : (computeOverall 100 100 fw ed).uniqueness = 7.9 := by
    simp only [computeOverall]
    rw [huniqRaw]
    have h := round1_eq (277 / 35) 79 (by norm_num) (by norm_num)
    rw [h]
    norm_num
  exact ⟨heye, hharm, hover, huniq⟩

lemma perfect_pipeline (w h : ℝ) (lms : ℕ → LM)
    (hmir : ∀ p ∈ symmetricPairs, (lms p.1).x = 1 - (lms p.2).x)
    (h1 : ratioFaceLengthWidth w h lms = 1.618) (h2 : ratioEyeMouth w h lms = 1.618)
    (h3 : ratioEyeFace w h lms = 0.32) (h4 : ratioNoseChinFace w h lms = 0.618)
    (h5 : ratioLipMouth w h lms = 0.2) :
    calcSymmetryScore lms = 100 ∧
    (analyzeGolden w h lms).score = 100 ∧
    eyeScoreOf (analyzeGolden w h lms).faceWidth (analyzeGolden w h lms).eyeDist = 100 ∧
    (computeOverall (calcSymmetryScore lms) (analyzeGolden w h lms).score
      (analyzeGolden w h lms).faceWidth (analyzeGolden w h lms).eyeDist).harmony = 100 ∧
    (computeOverall (calcSymmetryScore lms) (analyzeGolden w h lms).score
      (analyzeGolden w h lms).faceWidth (analyzeGolden w h lms).eyeDist).overall = 10 ∧
    (computeOverall (calcSymmetryScore lms) (analyzeGolden w h lms).score
      (analyzeGolden w h lms).faceWidth (analyzeGolden w h lms).eyeDist).uniqueness = 7.9 := by
  have hsym := calcSymmetryScore_mirror lms hmir
  have hgold := goldenScore_of_targets w h lms h1 h2 h3 h4 h5
  have hfw : 0 < faceWidth w h lms := by
    by_contra hc
    unfold ratioEyeFace at h3
    rw [if_neg hc] at h3
    norm_num at h3
  have hratio : eyeDist w h lms / faceWidth w h lms = 0.32 := by
    unfold ratioEyeFace at h3
    rwa [if_pos hfw] at h3
  have hband : 0.28 < eyeDist w h lms / faceWidth w h lms ∧
      eyeDist w h lms / faceWidth w h lms < 0.36 := by
    rw [hratio]
    constructor <;> norm_num
  obtain ⟨heye, hharm, hover, huniq⟩ :=
    computeOverall_perfect (faceWidth w h lms) (eyeDist w h lms) hfw hband
  refine ⟨hsym, hgold, ?_, ?_, ?_, ?_⟩
  · simp only [analyzeGolden]
    exact heye
  · simp only [analyzeGolden]
    rw [hsym]
    show (computeOverall 100 (goldenScore w h lms) _ _).harmony = 100
    rw [hgold]
    exact hharm
  · simp only [analyzeGolden]
    rw [hsym]
    show (computeOverall 100 (goldenScore w h lms) _ _).overall = 10
    rw [hgold]
    exact hover
  · simp only [analyzeGolden]
    rw [hsym]
    show (computeOverall 100 (goldenScore w h lms) _ _).uniqueness = 7.9
    rw [hgold]
    exact huniq

/-- C6 counterexample: a concrete landmark set realizing the claim's scenario
(perfectly mirrored bilateral pairs, all five ratios exactly on target,
eye-spacing ratio 0.32 ∈ (0.28, 0.36)) yields originality (uniqueness) 7.9,
not the 8.1 the claim predicts — the claim's own pivot formula evaluates to
`5 + 4·(0.4·1 + 0.3·(2/3) + 0.3·(3/7)) = 277/35 ≈ 7.914`, not ≈ 8.09. -/
theorem c6_counterexample :
    calcSymmetryScore lmC6 = 100 ∧
    (analyzeGolden 1 1 lmC6).score = 100 ∧
    (computeOverall (calcSymmetryScore lmC6) (analyzeGolden 1 1 lmC6).score
      (analyzeGolden 1 1 lmC6).faceWidth (analyzeGolden 1 1 lmC6).eyeDist).uniqueness = 7.9 ∧
    (7.9 : ℝ) ≠ 8.1 := by
  obtain ⟨w1, w2, w3, w4, w5⟩ := lmC6_ratios
  obtain ⟨hsym, hgold, heye, hharm, hover, huniq⟩ :=
    perfect_pipeline 1 1 lmC6 lmC6_mirror w1 w2 w3 w4 w5
  exact ⟨hsym, hgold, huniq, by norm_num⟩

/-- Claim C6 (amended): for the end-to-end scenario of a landmark set whose
bilateral pairs are perfectly mirrored, whose five ratios exactly equal their
targets, and whose eye-distance / face-width ratio lies in (0.28, 0.36):
symmetry = 100, golden = 100, eye-spacing sub-score = 100, harmony = 100,
overall = 10, and originality = clamp(5 + 4·(0.4·|50−100|/50 + 0.3·|60−100|/60
+ 0.3·|70−100|/70), 1, 10) = 277/35 ≈ 7.914, i.e. 7.9 after rounding to
one decimal (the claim's value 8.1 follows from an arithmetic slip). -/
theorem c6_end_to_end (w h : ℝ) (lms : ℕ → LM)
    (hmir : ∀ p ∈ symmetricPairs, (lms p.1).x = 1 - (lms p.2).x)
    (h1 : ratioFaceLengthWidth w h lms = 1.618) (h2 : ratioEyeMouth w h lms = 1.618)
    (h3 : ratioEyeFace w h lms = 0.32) (h4 : ratioNoseChinFace w h lms = 0.618)
    (h5 : ratioLipMouth w h lms = 0.2)
    (hband : 0.28 < (analyzeGolden w h lms).eyeDist / (analyzeGolden w h lms).faceWidth ∧
      (analyzeGolden w h lms).eyeDist / (analyzeGolden w h lms).faceWidth < 0.36) :
    calcSymmetryScore lms = 100 ∧
    (analyzeGolden w h lms).score = 100 ∧
    eyeScoreOf (analyzeGolden w h lms).faceWidth (analyzeGolden w h lms).eyeDist = 100 ∧
    (computeOverall (calcSymmetryScore lms) (analyzeGolden w h lms).score
      (analyzeGolden w h lms).faceWidth (analyzeGolden w h lms).eyeDist).harmony = 100 ∧
    (computeOverall (calcSymmetryScore lms) (analyzeGolden w h lms).score
      (analyzeGolden w h lms).faceWidth (analyzeGolden w h lms).eyeDist).overall = 10 ∧
    (computeOverall (calcSymmetryScore lms) (analyzeGolden w h lms).score
      (analyzeGolden w h lms).faceWidth (analyzeGolden w h lms).eyeDist).uniqueness = 7.9 :=
  perfect_pipeline w h lms hmir h1 h2 h3 h4 h5

/-- Witness for C6 (amended) at the concrete perfect landmark set. -/
theorem c6_end_to_end_witness :
    calcSymmetryScore lmC6 = 100 ∧
    (analyzeGolden 1 1 lmC6).score = 100 ∧
    eyeScoreOf (analyzeGolden 1 1 lmC6).faceWidth (analyzeGolden 1 1 lmC6).eyeDist = 100 ∧
    (computeOverall (calcSymmetryScore lmC6) (analyzeGolden 1 1 lmC6).score
      (analyzeGolden 1 1 lmC6).faceWidth (analyzeGolden 1 1 lmC6).eyeDist).harmony = 100 ∧
    (computeOverall (calcSymmetryScore lmC6) (analyzeGolden 1 1 lmC6).score
      (analyzeGolden 1 1 lmC6).faceWidth (analyzeGolden 1 1 lmC6).eyeDist).overall = 10 ∧
    (computeOverall (calcSymmetryScore lmC6) (analyzeGolden 1 1 lmC6).score
      (analyzeGolden 1 1 lmC6).faceWidth (analyzeGolden 1 1 lmC6).eyeDist).uniqueness = 7.9 := by
  obtain ⟨w1, w2, w3, w4, w5⟩ := lmC6_ratios
  refine c6_end_to_end 1 1 lmC6 lmC6_mirror w1 w2 w3 w4 w5 ?_
  simp only [analyzeGolden]
  rw [lmC6_eyeDist, lmC6_faceWidth]
  constructor <;> norm_num

/-- Witness for C4 at the constant landmark set. -/
theorem c4_degenerate_witness :
    (faceLength 1 1 lmHalf = 0 ∧ faceWidth 1 1 lmHalf = 0 ∧ eyeDist 1 1 lmHalf = 0 ∧
      mouthWidth 1 1 lmHalf = 0 ∧ noseToChin 1 1 lmHalf = 0 ∧ lipHeight 1 1 lmHalf = 0) ∧
    (ratioFaceLengthWidth 1 1 lmHalf = 0 ∧ ratioEyeMouth 1 1 lmHalf = 0 ∧
      ratioEyeFace 1 1 lmHalf = 0 ∧ ratioNoseChinFace 1 1 lmHalf = 0 ∧
      ratioLipMouth 1 1 lmHalf = 0) ∧
    relErrs 1 1 lmHalf = [1, 1, 1, 1, 1] ∧
    (analyzeGolden 1 1 lmHalf).score = round2 (100 * Real.exp (-5)) ∧
    (analyzeGolden 1 1 lmHalf).score = 0.67 :=
  c4_degenerate_geometry 1 1 lmHalf { x := 1 / 2, y := 1 / 2, z := none } fun _ => rfl

/-! ## Jitter and the uncertainty bootstrap (C5, C8) -/

lemma jitterLandmarks_sigma_zero (u : ℕ → ℝ) (lms : ℕ → LM)
    (hc : ∀ i, 0 ≤ (lms i).x ∧ (lms i).x ≤ 1 ∧ 0 ≤ (lms i).y ∧ (lms i).y ≤ 1) :
    jitterLandmarks u lms 0 = lms := by
  funext i
  obtain ⟨hx0, hx1, hy0, hy1⟩ := hc i
  unfold jitterLandmarks jitterNoise
  simp only [mul_zero, add_zero]
  rw [clamp_eq_self _ _ _ hx0 hx1, clamp_eq_self _ _ _ hy0 hy1]

lemma uncVals_const (c : ℝ) (n : ℕ) : uncVals (fun _ => c) n = List.replicate n c := by
  unfold uncVals
  simp [List.map_const']

lemma uncMean_const (c : ℝ) (n : ℕ) (hn : 1 ≤ n) : uncMean (fun _ => c) n = c := by
  have hnn : ((n : ℕ) : ℝ) ≠ 0 := Nat.cast_ne_zero.mpr (by omega)
  unfold uncMean
  rw [uncVals_const, List.sum_replicate, List.length_replicate, nsmul_eq_mul]
  exact mul_div_cancel_left₀ c hnn

lemma uncSd_const (c : ℝ) (n : ℕ) (hn : 1 ≤ n) : uncSd (fun _ => c) n = 0 := by
  unfold uncSd
  simp only [uncVals_const, uncMean_const c n hn, List.map_replicate]
  simp

lemma withUncertainty_const (c : ℝ) (n : ℕ) (hn : 1 ≤ n) :
    (withUncertainty (fun _ => c) n).sd = 0 ∧ (withUncertainty (fun _ => c) n).ci95 = 0 := by
  have hsd := uncSd_const c n hn
  constructor
  · simp only [withUncertainty]
    exact hsd
  · simp only [withUncertainty]
    rw [hsd]
    norm_num

/-- Claim C8: for every base landmark list with all coordinates in [0,1] and
every `repeats ≥ 1`, the bootstrap (`withUncertainty` over `jitterLandmarks`)
with `sigma = 0` yields sd = 0 and ci95 = 0 regardless of `repeats` and of the
random draws, because jittering with sigma = 0 returns the base landmarks
unchanged and every repetition collects the identical scalar. -/
theorem c8_sigma_zero_bootstrap (lms : ℕ → LM) (u : ℕ → ℕ → ℝ)
    (score : (ℕ → LM) → ℝ) (repeats : ℕ)
    (hc : ∀ i, 0 ≤ (lms i).x ∧ (lms i).x ≤ 1 ∧ 0 ≤ (lms i).y ∧ (lms i).y ≤ 1)
    (hrep : 1 ≤ repeats) :
    (withUncertainty (fun k => score (jitterLandmarks (u k) lms 0)) repeats).sd = 0 ∧
    (withUncertainty (fun k => score (jitterLandmarks (u k) lms 0)) repeats).ci95 = 0 := by
  have hj : (fun k => score (jitterLandmarks (u k) lms 0)) = fun _ => score lms := by
    funext k
    rw [jitterLandmarks_sigma_zero (u k) lms hc]
  rw [hj]
  exact withUncertainty_const (score lms) repeats hrep

/-- Witness for C8: the symmetry score bootstrapped over the constant
landmark set with sigma = 0 and 2 repetitions. -/
theorem c8_sigma_zero_witness :
    (withUncertainty (fun k => calcSymmetryScore
      (jitterLandmarks ((fun _ _ => (0 : ℝ)) k) lmHalf 0)) 2).sd = 0 ∧
    (withUncertainty (fun k => calcSymmetryScore
      (jitterLandmarks ((fun _ _ => (0 : ℝ)) k) lmHalf 0)) 2).ci95 = 0 := by
  refine c8_sigma_zero_bootstrap lmHalf (fun _ _ => 0) calcSymmetryScore 2 ?_ (by norm_num)
  intro i
  refine ⟨by norm_num [lmHalf], by norm_num [lmHalf], by norm_num [lmHalf], by norm_num [lmHalf]⟩

/-- C5 counterexample: over the uniform distribution of `Math.random` draws
on [0,1], the code's jitter noise at sigma = 0.003 has mean 0 but mean square
(variance) `sigma^2 / 3` — the mean square of uniform noise on [−sigma, sigma]
— and not the `sigma^2` that zero-mean Gaussian noise with standard deviation
sigma would have, so the noise added by `jitterLandmarks` is not Gaussian with
standard deviation sigma. -/
theorem c5_counterexample :
    (∫ u in (0:ℝ)..1, jitterNoise u 0.003) = 0 ∧
    (∫ u in (0:ℝ)..1, (jitterNoise u 0.003) ^ 2) = 0.003 ^ 2 / 3 ∧
    (0.003 : ℝ) ^ 2 / 3 ≠ 0.003 ^ 2 := by
  have hid : (∫ u in (0:ℝ)..1, (2 * u + -1)) = 0 := by
    calc (∫ u in (0:ℝ)..1, (2 * u + -1))
        = (2:ℝ)⁻¹ • ∫ x in (2 * (0:ℝ) + -1)..(2 * 1 + -1), x :=
          intervalIntegral.integral_comp_mul_add (fun x => x) (by norm_num) (-1)
      _ = 0 := by
          rw [integral_id]
          norm_num
  have hsq1 : (∫ u in (0:ℝ)..1, (2 * u + -1) ^ 2) = 1 / 3 := by
    calc (∫ u in (0:ℝ)..1, (2 * u + -1) ^ 2)
        = (2:ℝ)⁻¹ • ∫ x in (2 * (0:ℝ) + -1)..(2 * 1 + -1), x ^ 2 :=
          intervalIntegral.integral_comp_mul_add (fun x => x ^ 2) (by norm_num) (-1)
      _ = 1 / 3 := by
          rw [integral_pow]
          norm_num
  have hm : (∫ u in (0:ℝ)..1, jitterNoise u 0.003)
      = 0.003 * ∫ u in (0:ℝ)..1, (2 * u + -1) := by
    rw [← intervalIntegral.integral_const_mul]
    apply intervalIntegral.integral_congr
    intro u _
    unfold jitterNoise
    ring
  have hs : (∫ u in (0:ℝ)..1, (jitterNoise u 0.003) ^ 2)
      = 0.000009 * ∫ u in (0:ℝ)..1, (2 * u + -1) ^ 2 := by
    rw [← intervalIntegral.integral_const_mul]
    apply intervalIntegral.integral_congr
    intro u _
    unfold jitterNoise
    ring
  refine ⟨?_, ?_, by norm_num⟩
  · rw [hm, hid]
    norm_num
  · rw [hs, hsq1]
    norm_num

/-- Claim C5 (amended): for every landmark list, every sigma ≥ 0, and every
stream of `Math.random` draws in [0,1), `jitterLandmarks` produces a copy in
which each coordinate is the original plus an independent noise term
`(2u − 1)·sigma` — zero-mean uniform noise on [−sigma, sigma), bounded by
sigma in absolute value (hence not Gaussian) — clamped back into [0,1],
with the z component passed through unchanged. -/
theorem c5_jitter_uniform (u : ℕ → ℝ) (lms : ℕ → LM) (σ : ℝ) (hσ : 0 ≤ σ)
    (hu : ∀ n, 0 ≤ u n ∧ u n < 1) (i : ℕ) :
    (jitterLandmarks u lms σ i).x = clamp ((lms i).x + jitterNoise (u (2 * i)) σ) 0 1 ∧
    (jitterLandmarks u lms σ i).y = clamp ((lms i).y + jitterNoise (u (2 * i + 1)) σ) 0 1 ∧
    (jitterLandmarks u lms σ i).z = (lms i).z ∧
    0 ≤ (jitterLandmarks u lms σ i).x ∧ (jitterLandmarks u lms σ i).x ≤ 1 ∧
    0 ≤ (jitterLandmarks u lms σ i).y ∧ (jitterLandmarks u lms σ i).y ≤ 1 ∧
    |jitterNoise (u (2 * i)) σ| ≤ σ ∧ |jitterNoise (u (2 * i + 1)) σ| ≤ σ := by
  have habs : ∀ n, |jitterNoise (u n) σ| ≤ σ := by
    intro n
    obtain ⟨h0, h1⟩ := hu n
    unfold jitterNoise
    rw [abs_mul, abs_of_nonneg hσ]
    have hb : |u n * 2 - 1| ≤ 1 := abs_le.mpr ⟨by linarith, by linarith⟩
    exact mul_le_of_le_one_left hσ hb
  refine ⟨rfl, rfl, rfl, ?_, ?_, ?_, ?_, habs _, habs _⟩
  · exact lo_le_clamp _ _ _ (by norm_num)
  · exact clamp_le_hi _ _ _
  · exact lo_le_clamp _ _ _ (by norm_num)
  · exact clamp_le_hi _ _ _

/-- Witness for C5 (amended) at sigma = 0.003, the constant half-draw stream,
and the constant landmark set, at index 0. -/
theorem c5_jitter_uniform_witness :
    (jitterLandmarks (fun _ => (1:ℝ)/2) lmHalf 0.003 0).x =
      clamp ((lmHalf 0).x + jitterNoise ((fun _ => (1:ℝ)/2) (2 * 0)) 0.003) 0 1 ∧
    (jitterLandmarks (fun _ => (1:ℝ)/2) lmHalf 0.003 0).y =
      clamp ((lmHalf 0).y + jitterNoise ((fun _ => (1:ℝ)/2) (2 * 0 + 1)) 0.003) 0 1 ∧
    (jitterLandmarks (fun _ => (1:ℝ)/2) lmHalf 0.003 0).z = (lmHalf 0).z ∧
    0 ≤ (jitterLandmarks (fun _ => (1:ℝ)/2) lmHalf 0.003 0).x ∧
    (jitterLandmarks (fun _ => (1:ℝ)/2) lmHalf 0.003 0).x ≤ 1 ∧
    0 ≤ (jitterLandmarks (fun _ => (1:ℝ)/2) lmHalf 0.003 0).y ∧
    (jitterLandmarks (fun _ => (1:ℝ)/2) lmHalf 0.003 0).y ≤ 1 ∧
    |jitterNoise ((fun _ => (1:ℝ)/2) (2 * 0)) 0.003| ≤ 0.003 ∧
    |jitterNoise ((fun _ => (1:ℝ)/2) (2 * 0 + 1)) 0.003| ≤ 0.003 :=
  c5_jitter_uniform (fun _ => (1:ℝ)/2) lmHalf 0.003 (by norm_num)
    (fun _ => ⟨by norm_num, by norm_num⟩) 0

end BeautyScore
